import Mathlib

/-!
Shallow embedding of the resilient price-data retrieval layer of the
trading-educativo repository, together with theorems checking its
specification.

Embedded modules:
* `app/services/yahoo_finance_cache.py` — the in-memory TTL cache.
* `app/services/bitcoin_price_service.py` — the Binance adapter.
* `app/services/coingecko_price_service.py` — the CoinGecko adapter.
* `app/services/yahoo_finance_service.py` — the Yahoo Finance adapter
  (cache-first retrieval with stale fallback).
* `app/services/yahoo_finance_fallback.py` / `crypto_fallback.py` —
  degraded-response construction.
* `app/services/unified_price_service.py` — dispatch by market class.
* The retrieval/fallback flow of `analizar_activo` in `app/api/analysis.py`.

Conventions of the embedding:
* Python floats are modelled as `ℚ`; `datetime` instants as `ℕ` seconds
  (the clock is an explicit `now` argument, and TTL arithmetic is exact).
* The module-level mutable dictionary `_cache` is threaded explicitly:
  mutating operations take a cache state and return the new one.
* Each network call is an explicit oracle argument: `none` stands for any
  failed call (timeout / non-2xx / unreachable) — the code under scrutiny
  handles all of those identically — and `some payload` for a 2xx
  response with the given parsed JSON body.
* Python exceptions that the code uses for control flow are modelled as
  result constructors (`valueError`, `exception`, `fallback …`).
* `str.lower` / `str.upper` are modelled character-wise on the basic
  latin range, matching their behavior on the ASCII inputs the system
  uses for market, symbol and timeframe strings.
-/

/-! ### Python string case mapping -/

/-- Round-trip `(Char.ofNat n).toNat = n` for any valid scalar value `n`. -/
theorem toNat_ofNat_valid (n : Nat) (h : n.isValidChar) : (Char.ofNat n).toNat = n := by
  rw [Char.ofNat, dif_pos h]; rfl

/-- Characters with equal scalar values are equal. -/
theorem char_eq_of_toNat_eq {a b : Char} (h : a.toNat = b.toNat) : a = b :=
  Char.ext (UInt32.ext h)

/-- Scalar-value form of `Char.toLower`. -/
theorem toNat_toLower (c : Char) :
    c.toLower.toNat = if 65 ≤ c.toNat ∧ c.toNat ≤ 90 then c.toNat + 32 else c.toNat := by
  simp only [Char.toLower]
  split
  · rename_i h
    rw [toNat_ofNat_valid _ (Or.inl (by omega))]
  · rfl

/-- Scalar-value form of `Char.toUpper`. -/
theorem toNat_toUpper (c : Char) :
    c.toUpper.toNat = if 97 ≤ c.toNat ∧ c.toNat ≤ 122 then c.toNat - 32 else c.toNat := by
  simp only [Char.toUpper]
  split
  · rename_i h
    rw [toNat_ofNat_valid _ (Or.inl (by omega))]
  · rfl

theorem toUpper_toLower_char (c : Char) : c.toLower.toUpper = c.toUpper := by
  apply char_eq_of_toNat_eq
  rw [toNat_toUpper, toNat_toUpper, toNat_toLower]
  split_ifs <;> omega

theorem toLower_toUpper_char (c : Char) : c.toUpper.toLower = c.toLower := by
  apply char_eq_of_toNat_eq
  rw [toNat_toLower, toNat_toLower, toNat_toUpper]
  split_ifs <;> omega

theorem toLower_toLower_char (c : Char) : c.toLower.toLower = c.toLower := by
  apply char_eq_of_toNat_eq
  rw [toNat_toLower, toNat_toLower]
  split_ifs <;> omega

theorem toUpper_toUpper_char (c : Char) : c.toUpper.toUpper = c.toUpper := by
  apply char_eq_of_toNat_eq
  rw [toNat_toUpper, toNat_toUpper]
  split_ifs <;> omega

/-- Python `str.lower()` (character-wise, basic latin range). -/
def pyLower (s : String) : String := ⟨s.data.map Char.toLower⟩

/-- Python `str.upper()` (character-wise, basic latin range). -/
def pyUpper (s : String) : String := ⟨s.data.map Char.toUpper⟩

/-- Python `str.strip()`: drop leading and trailing whitespace. -/
def pyStrip (s : String) : String :=
  ⟨((s.data.dropWhile Char.isWhitespace).reverse.dropWhile Char.isWhitespace).reverse⟩

/-! ### Canonical candle model

One OHLCV observation, the format shared by all adapters
(`{"open": …, "high": …, "low": …, "close": …, "volume": …}`). -/

structure Vela where
  «open» : ℚ
  high : ℚ
  low : ℚ
  close : ℚ
  volume : ℚ
deriving DecidableEq, Repr

/-! ### TTL cache (`app/services/yahoo_finance_cache.py`) -/

/-- Cache keys: the `(market, symbol, timeframe)` tuples built by
`_make_cache_key`. -/
abbrev CacheKey := String × String × String

/-- One `_cache` dictionary value: candle list, write instant, expiry instant. -/
structure CacheEntry where
  data : List Vela
  timestamp : ℕ
  expires_at : ℕ
deriving DecidableEq, Repr

/-- The `_cache` dictionary, as an association list with unique keys. -/
abbrev Cache := List (CacheKey × CacheEntry)

/-- Table `CACHE_TTL`: seconds of validity per timeframe code. -/
def CACHE_TTL : List (String × ℕ) :=
  [("1d", 1800), ("1h", 600), ("4h", 900)]

/-- Constant `DEFAULT_CACHE_DURATION_SECONDS`: TTL for timeframes absent from `CACHE_TTL`. -/
def DEFAULT_CACHE_DURATION_SECONDS : ℕ := 300

/-- Function `get_cache_duration`: `CACHE_TTL.get(timeframe.lower(), DEFAULT_CACHE_DURATION_SECONDS)`. -/
def get_cache_duration (timeframe : String) : ℕ :=
  match CACHE_TTL.find? (fun p => p.1 == pyLower timeframe) with
  | some p => p.2
  | none => DEFAULT_CACHE_DURATION_SECONDS

/-- Function `_make_cache_key`: `(market.lower(), symbol.upper(), timeframe.lower())`. -/
def _make_cache_key (market symbol timeframe : String) : CacheKey :=
  (pyLower market, pyUpper symbol, pyLower timeframe)

/-- Dictionary read: `_cache[key]` when `key in _cache`. -/
def cacheFind (cache : Cache) (key : CacheKey) : Option CacheEntry :=
  (cache.find? (fun p => p.1 == key)).map (·.2)

/-- Dictionary delete: `del _cache[key]`. -/
def cacheDelete (cache : Cache) (key : CacheKey) : Cache :=
  cache.filter (fun p => !(p.1 == key))

/-- Dictionary write: `_cache[key] = entry`. -/
def cacheWrite (cache : Cache) (key : CacheKey) (entry : CacheEntry) : Cache :=
  (key, entry) :: cacheDelete cache key

/-- Function `get_from_cache`: return a non-expired entry's data; an expired entry is
deleted (`del _cache[key]`) and `None` is returned.  The returned cache is
the dictionary state after the call. -/
def get_from_cache (cache : Cache) (now : ℕ) (market symbol timeframe : String) :
    Option (List Vela) × Cache :=
  let key := _make_cache_key market symbol timeframe
  match cacheFind cache key with
  | none => (none, cache)
  | some entry =>
    if entry.expires_at < now then
      (none, cacheDelete cache key)
    else
      (some entry.data, cache)

/-- Function `save_to_cache`: overwrite the entry with fresh timestamps, the expiry
computed from the timeframe-specific TTL. -/
def save_to_cache (cache : Cache) (now : ℕ) (market symbol timeframe : String)
    (data : List Vela) : Cache :=
  let key := _make_cache_key market symbol timeframe
  let duration := get_cache_duration timeframe
  cacheWrite cache key ⟨data, now, now + duration⟩

/-- Function `get_last_cache`: return the entry's data regardless of freshness,
`None` only when the key is absent. -/
def get_last_cache (cache : Cache) (market symbol timeframe : String) :
    Option (List Vela) :=
  (cacheFind cache (_make_cache_key market symbol timeframe)).map (·.data)

/-! ### Binance adapter (`app/services/bitcoin_price_service.py`) -/

/-- Table `TIMEFRAMES_PERMITIDOS`: the timeframe codes Binance accepts (dict keys). -/
def TIMEFRAMES_PERMITIDOS : List String :=
  ["1m", "3m", "5m", "15m", "30m", "1h", "2h", "4h", "6h", "8h", "12h",
   "1d", "3d", "1w", "1M"]

/-- One raw Binance kline `[Open time, Open, High, Low, Close, Volume, …]`,
with the numeric strings already coerced by `float(…)`. -/
structure BinanceRaw where
  open_time : ℕ
  «open» : ℚ
  high : ℚ
  low : ℚ
  close : ℚ
  volume : ℚ
deriving DecidableEq, Repr

/-- Function `convertir_vela_binance_a_formato`: keep positions 1–5 as
open/high/low/close/volume.  No validity check is applied. -/
def convertir_vela_binance_a_formato (vela_binance : BinanceRaw) : Vela :=
  { «open» := vela_binance.«open»
    high := vela_binance.high
    low := vela_binance.low
    close := vela_binance.close
    volume := vela_binance.volume }

/-- Result of `obtener_velas_bitcoin` (and of the unified crypto branch):
a candle list, a `ValueError` (invalid timeframe or limit), or a generic
`Exception` (any network / upstream failure). -/
inductive CryptoResult where
  | ok (velas : List Vela)
  | valueError
  | exception
deriving DecidableEq, Repr

/-- Function `obtener_velas_bitcoin`: validate timeframe and limit, then fetch and
convert every returned kline (the oracle `fetch` is the Binance call). -/
def obtener_velas_bitcoin (timeframe : String) (limite : ℕ) (simbolo : String)
    (fetch : Option (List BinanceRaw)) : CryptoResult :=
  if ¬ (timeframe ∈ TIMEFRAMES_PERMITIDOS) then .valueError
  else if limite < 1 ∨ limite > 1000 then .valueError
  else
    -- parameters sent upstream use `simbolo.upper()`; the oracle already
    -- stands for the response to that request
    match fetch with
    | none => .exception
    | some velas_binance => .ok (velas_binance.map convertir_vela_binance_a_formato)

/-! ### CoinGecko adapter (`app/services/coingecko_price_service.py`) -/

/-- Table `SYMBOL_TO_COINGECKO_ID`: the fixed symbol allowlist. -/
def SYMBOL_TO_COINGECKO_ID : List (String × String) :=
  [("BTCUSDT", "bitcoin"), ("ETHUSDT", "ethereum"), ("SOLUSDT", "solana"),
   ("BNBUSDT", "binancecoin"), ("XRPUSDT", "ripple")]

/-- Table `TIMEFRAME_TO_DAYS`: lookback window per timeframe (default 2). -/
def TIMEFRAME_TO_DAYS : List (String × ℕ) :=
  [("1h", 1), ("4h", 30), ("1d", 90)]

/-- One `[timestamp, open, high, low, close]` point of the CoinGecko OHLC
response, numbers already coerced. -/
structure CGRaw where
  timestamp : ℕ
  «open» : ℚ
  high : ℚ
  low : ℚ
  close : ℚ
deriving DecidableEq, Repr

/-- Failures of `obtener_velas_coingecko`: `CoinGeckoError` for a symbol
outside the allowlist, a propagated httpx error for a failed call, and
`CoinGeckoError` again for an empty/invalid body. -/
inductive CGError where
  | unsupportedSymbol (symbol : String)
  | httpError
  | emptyData (symbol : String)
deriving DecidableEq, Repr

/-- Function `_coingecko_id_from_symbol`: allowlist lookup on `symbol.upper().strip()`. -/
def _coingecko_id_from_symbol (symbol : String) : Except CGError String :=
  let s := pyStrip (pyUpper symbol)
  match SYMBOL_TO_COINGECKO_ID.find? (fun p => p.1 == s) with
  | some p => .ok p.2
  | none => .error (.unsupportedSymbol symbol)

/-- Function `_convert_ohlc_to_vela` composed with the output-shaping comprehension:
drop the timestamp, volume defaults to 0 (CoinGecko OHLC has none). -/
def _convert_ohlc_to_vela (punto : CGRaw) : Vela :=
  { «open» := punto.«open», high := punto.high, low := punto.low,
    close := punto.close, volume := 0 }

/-- Function `obtener_velas_coingecko`: allowlist check, fetch, empty-body check,
convert, keep the last `limite` candles. -/
def obtener_velas_coingecko (simbolo : String) (timeframe : String) (limite : ℕ)
    (fetch : Option (List CGRaw)) : Except CGError (List Vela) := do
  let _ ← _coingecko_id_from_symbol simbolo
  let _days := match TIMEFRAME_TO_DAYS.find? (fun p => p.1 == timeframe) with
    | some p => p.2
    | none => 2
  match fetch with
  | none => .error .httpError
  | some data =>
    if data = [] then .error (.emptyData simbolo)
    else
      let resultado := data.map _convert_ohlc_to_vela
      if resultado.length > limite then .ok (resultado.drop (resultado.length - limite))
      else .ok resultado

/-! ### Yahoo Finance adapter (`app/services/yahoo_finance_service.py`) -/

/-- Table `timeframe_mapping`: timeframes Yahoo accepts, with their intervals. -/
def timeframe_mapping : List (String × String) :=
  [("1h", "1h"), ("4h", "4h"), ("1d", "1d"), ("1w", "1wk"), ("1M", "1mo")]

/-- The parallel arrays of one Yahoo chart quote: timestamps plus
open/high/low/close/volume, any numeric position possibly `null`. -/
structure YahooQuote where
  timestamps : List ℕ
  opens : List (Option ℚ)
  highs : List (Option ℚ)
  lows : List (Option ℚ)
  closes : List (Option ℚ)
  volumes : List (Option ℚ)
deriving DecidableEq, Repr

/-- The conversion loop of `obtener_velas_yahoo_finance`: walk indices
`start_index … data_count - 1` (the last `limite` positions), skip any index
with a `null` open/high/low/close, default a `null` volume to 0.
An index beyond an array's end is treated like `null`. -/
def yahooParse (q : YahooQuote) (limite : ℕ) : List Vela :=
  let data_count := q.timestamps.length
  let start_index := data_count - limite
  (List.range' start_index (data_count - start_index)).filterMap (fun i =>
    match (q.opens.get? i).join, (q.highs.get? i).join,
          (q.lows.get? i).join, (q.closes.get? i).join with
    | some o, some h, some l, some c =>
        some ⟨o, h, l, c, ((q.volumes.get? i).join).getD 0⟩
    | _, _, _, _ => none)

/-- Result of `obtener_velas_yahoo_finance`: a candle list, the raised
`YahooFinanceFallback(market, symbol, timeframe)`, or the `ValueError` for
an unsupported timeframe. -/
inductive YahooResult where
  | velas (vs : List Vela)
  | fallback (market symbol timeframe : String)
  | valueError
deriving DecidableEq, Repr

/-- The common body of the three `except` handlers: serve `get_last_cache`
data truncated to `limite` if any exists, otherwise raise
`YahooFinanceFallback`. -/
def yahooExceptHandler (cache : Cache) (market symbol timeframe : String)
    (limite : ℕ) : YahooResult × Cache :=
  match get_last_cache cache market symbol timeframe with
  | some last_cache =>
      (.velas (if limite < last_cache.length then last_cache.take limite else last_cache),
       cache)
  | none => (.fallback market symbol timeframe, cache)

/-- Function `obtener_velas_yahoo_finance`: cache-first retrieval.  Step 1 consults
`get_from_cache` (which deletes an expired entry); a hit is served truncated
to `limite`.  Otherwise the timeframe is validated, the provider is called
(`fetch` oracle), the response is converted by `yahooParse`; zero usable
candles raise, landing in the same handler as network errors; a success is
written through `save_to_cache`. -/
def obtener_velas_yahoo_finance (cache : Cache) (now : ℕ)
    (fetch : Option YahooQuote) (symbol : String) (timeframe : String)
    (limite : ℕ) (market : String) : YahooResult × Cache :=
  let (cached_data, cache1) := get_from_cache cache now market symbol timeframe
  match cached_data with
  | some d =>
      (.velas (if limite < d.length then d.take limite else d), cache1)
  | none =>
    if (timeframe_mapping.find? (fun p => p.1 == timeframe)).isNone then
      (.valueError, cache1)
    else
      match fetch with
      | some q =>
        let velas := yahooParse q limite
        if velas = [] then
          yahooExceptHandler cache1 market symbol timeframe limite
        else
          (.velas velas, save_to_cache cache1 now market symbol timeframe velas)
      | none => yahooExceptHandler cache1 market symbol timeframe limite

/-! ### Fallback responses (`yahoo_finance_fallback.py`, `crypto_fallback.py`) -/

/-- The dictionary built by `get_fallback_response_data`. -/
structure FallbackData where
  status_code : String
  message_code : String
  confidence : String
  precio_referencia : Option ℚ
  cache_disponible : Bool
  disclaimer_code : String
deriving DecidableEq, Repr

/-- Function `get_fallback_response_data`: degraded equity response; the reference
price is the last cached candle's close when `get_last_cache` finds a
non-empty entry. -/
def get_fallback_response_data (cache : Cache) (market symbol timeframe : String) :
    FallbackData :=
  let last_cache := get_last_cache cache market symbol timeframe
  let precio_referencia := (last_cache.bind (fun d => d.getLast?)).map (·.close)
  { status_code := "DATA_TEMPORARILY_UNAVAILABLE"
    message_code := "DATA_SOURCE_RATE_LIMIT"
    confidence := "LOW"
    precio_referencia := precio_referencia
    cache_disponible := last_cache.isSome
    disclaimer_code := "DISCLAIMER" }

/-- The dictionary built by `get_crypto_fallback_response_data`: the crypto
degraded response is constant — in particular `precio_referencia` is always
`None` and no cache is consulted. -/
structure CryptoFallbackData where
  status_code : String
  message_code : String
  confidence : String
  precio_referencia : Option ℚ
  disclaimer_code : String
deriving DecidableEq, Repr

/-- Function `get_crypto_fallback_response_data`. -/
def get_crypto_fallback_response_data (_symbol _timeframe : String) :
    CryptoFallbackData :=
  { status_code := "DATA_TEMPORARILY_UNAVAILABLE"
    message_code := "DATA_SOURCE_ERROR"
    confidence := "LOW"
    precio_referencia := none
    disclaimer_code := "DISCLAIMER" }

/-! ### Unified service (`app/services/unified_price_service.py`) -/

/-- The crypto branch of `obtener_velas`: it delegates to
`obtener_velas_bitcoin` with `symbol.upper()`.  The CoinGecko oracle
(`cgFetch`, the response the CoinGecko adapter would obtain) is part of the
environment but is never consulted, and the cache is never touched. -/
def obtener_velas_crypto (cache : Cache) (cgFetch : Option (List CGRaw))
    (bFetch : Option (List BinanceRaw)) (symbol timeframe : String)
    (limite : ℕ) : CryptoResult × Cache :=
  (obtener_velas_bitcoin timeframe limite (pyUpper symbol) bFetch, cache)

/-! ### The retrieval/fallback flow of `analizar_activo` (`app/api/analysis.py`) -/

/-- The two response shapes `analizar_activo` can produce for a retrieval:
a normal analysis over candles, or the degraded shape with zero candles and
an optional reference price. -/
inductive Response where
  | normal (velas : List Vela)
  | unavailable (precio_referencia : Option ℚ)
deriving DecidableEq, Repr

/-- Endpoint flow `analizar_activo` for `market ∈ {stocks, cedears}`: call the unified
service (which forwards `symbol.upper()` / `market.lower()` to Yahoo), and
render candles, or the `get_fallback_response_data` shape on
`YahooFinanceFallback` / `ValueError` / empty candle list. -/
def analizar_activo_equity (cache : Cache) (now : ℕ) (fetch : Option YahooQuote)
    (market symbol timeframe : String) (limite : ℕ) : Response × Cache :=
  match obtener_velas_yahoo_finance cache now fetch (pyUpper symbol) timeframe
      limite (pyLower market) with
  | (.velas vs, cache1) =>
    if vs = [] then
      (.unavailable (get_fallback_response_data cache1 (pyLower market)
        (pyUpper symbol) timeframe).precio_referencia, cache1)
    else
      (.normal vs, cache1)
  | (.fallback m s t, cache1) =>
      (.unavailable (get_fallback_response_data cache1 m s t).precio_referencia,
       cache1)
  | (.valueError, cache1) =>
      (.unavailable (get_fallback_response_data cache1 (pyLower market)
        (pyUpper symbol) timeframe).precio_referencia, cache1)

/-- Endpoint flow `analizar_activo` for `market = crypto`: call the unified service and
render candles, or the `get_crypto_fallback_response_data` shape on any
failure or empty candle list. -/
def analizar_activo_crypto (cache : Cache) (cgFetch : Option (List CGRaw))
    (bFetch : Option (List BinanceRaw)) (symbol timeframe : String)
    (limite : ℕ) : Response × Cache :=
  match obtener_velas_crypto cache cgFetch bFetch symbol timeframe limite with
  | (.ok vs, cache1) =>
    if vs = [] then
      (.unavailable (get_crypto_fallback_response_data (pyUpper symbol)
        timeframe).precio_referencia, cache1)
    else
      (.normal vs, cache1)
  | (.valueError, cache1) =>
      (.unavailable (get_crypto_fallback_response_data (pyUpper symbol)
        timeframe).precio_referencia, cache1)
  | (.exception, cache1) =>
      (.unavailable (get_crypto_fallback_response_data (pyUpper symbol)
        timeframe).precio_referencia, cache1)

/-! ### Helper lemmas about the cache dictionary -/

theorem cacheFind_write (cache : Cache) (key : CacheKey) (entry : CacheEntry) :
    cacheFind (cacheWrite cache key entry) key = some entry := by
  simp [cacheFind, cacheWrite, List.find?]

theorem cacheFind_delete (cache : Cache) (key : CacheKey) :
    cacheFind (cacheDelete cache key) key = none := by
  simp only [cacheFind, cacheDelete, Option.map_eq_none']
  rw [List.find?_eq_none]
  intro p hp
  have := List.of_mem_filter hp
  simpa using this

/-! ### Case-variant strings

`caseVariantList as bs` holds when `bs` is obtained from `as` by replacing
individual characters with their upper- or lower-case forms. -/

def caseVariantChar (a b : Char) : Bool :=
  b == a || b == a.toUpper || b == a.toLower

def caseVariantList : List Char → List Char → Bool
  | [], [] => true
  | a :: as, b :: bs => caseVariantChar a b && caseVariantList as bs
  | _, _ => false

/-- Predicate: `t` is a casing variant of `s`. -/
def CaseVariantStr (s t : String) : Prop := caseVariantList s.data t.data = true

instance (s t : String) : Decidable (CaseVariantStr s t) :=
  inferInstanceAs (Decidable (_ = true))

theorem map_toLower_of_caseVariant :
    ∀ as bs : List Char, caseVariantList as bs = true →
      bs.map Char.toLower = as.map Char.toLower := by
  intro as
  induction as with
  | nil =>
    intro bs h
    cases bs with
    | nil => rfl
    | cons b bs => simp [caseVariantList] at h
  | cons a as ih =>
    intro bs h
    cases bs with
    | nil => simp [caseVariantList] at h
    | cons b bs =>
      simp only [caseVariantList, Bool.and_eq_true, caseVariantChar,
        Bool.or_eq_true, beq_iff_eq] at h
      obtain ⟨hb, hrest⟩ := h
      simp only [List.map_cons, List.cons.injEq]
      refine ⟨?_, ih bs hrest⟩
      rcases hb with (rfl | rfl) | rfl
      · rfl
      · exact toLower_toUpper_char a
      · exact toLower_toLower_char a

theorem map_toUpper_of_caseVariant :
    ∀ as bs : List Char, caseVariantList as bs = true →
      bs.map Char.toUpper = as.map Char.toUpper := by
  intro as
  induction as with
  | nil =>
    intro bs h
    cases bs with
    | nil => rfl
    | cons b bs => simp [caseVariantList] at h
  | cons a as ih =>
    intro bs h
    cases bs with
    | nil => simp [caseVariantList] at h
    | cons b bs =>
      simp only [caseVariantList, Bool.and_eq_true, caseVariantChar,
        Bool.or_eq_true, beq_iff_eq] at h
      obtain ⟨hb, hrest⟩ := h
      simp only [List.map_cons, List.cons.injEq]
      refine ⟨?_, ih bs hrest⟩
      rcases hb with (rfl | rfl) | rfl
      · rfl
      · exact toUpper_toUpper_char a
      · exact toUpper_toLower_char a

theorem pyLower_of_caseVariant {s t : String} (h : CaseVariantStr s t) :
    pyLower t = pyLower s := by
  unfold pyLower
  exact congrArg String.mk (map_toLower_of_caseVariant s.data t.data h)

theorem pyUpper_of_caseVariant {s t : String} (h : CaseVariantStr s t) :
    pyUpper t = pyUpper s := by
  unfold pyUpper
  exact congrArg String.mk (map_toUpper_of_caseVariant s.data t.data h)

/-! ### Claim C1 -/

/-- The cached candle used in the C1 scenario (last close 150). -/
def c1_vela : Vela := ⟨148, 151, 147, 150, 0⟩

/-- A cache holding one entry for `("stocks", "AAPL", "1d")` that expires at
instant 100. -/
def c1_cache : Cache := [(("stocks", "AAPL", "1d"), ⟨[c1_vela], 0, 100⟩)]

/-- C1: the claim — and the module's own contract for `get_last_cache`
("`None` only when there never was an entry") — says an expired entry is
not deleted by `get_from_cache`, so `get_last_cache` still returns its
candles.  The code instead executes `del _cache[key]` on the expired entry:
at instant 101 the `get_from_cache` call empties the cache and the
subsequent `get_last_cache` returns `None`. -/
theorem C1_expired_entry_deleted :
    get_from_cache c1_cache 101 "stocks" "AAPL" "1d" = (none, []) ∧
    get_last_cache (get_from_cache c1_cache 101 "stocks" "AAPL" "1d").2
      "stocks" "AAPL" "1d" = none ∧
    get_last_cache c1_cache "stocks" "AAPL" "1d" = some [c1_vela] := by
  decide

/-! ### Claim C5 -/

/-- The stale cached crypto candle of the C5 scenario (close 42). -/
def c5_vela : Vela := ⟨40, 43, 39, 42, 5⟩

/-- A cache holding a (long expired) entry for `("crypto", "BTCUSDT", "1h")`. -/
def c5_cache : Cache := [(("crypto", "BTCUSDT", "1h"), ⟨[c5_vela], 0, 100⟩)]

/-- C5 counterexample: with both crypto providers failing and a stale cache
entry whose most recent close is 42 present, the claim says the
`Unavailable` outcome carries reference price 42 derived from `getAny`; the
code's crypto fallback never consults the cache and its
`precio_referencia` is `None`. -/
theorem C5_counterexample :
    analizar_activo_crypto c5_cache none none "BTCUSDT" "1h" 100 =
      (.unavailable none, c5_cache) ∧
    get_last_cache c5_cache "crypto" "BTCUSDT" "1h" = some [c5_vela] ∧
    c5_vela.close = 42 := by
  decide

/-- C5 (amended): for every crypto retrieval in which all providers fail,
the outcome is the degraded (`Unavailable`) response with no reference
price, whatever the cache holds: `get_crypto_fallback_response_data` is
constant with `precio_referencia = None`. -/
theorem C5_unavailable_no_reference_price (cache : Cache)
    (cgFetch : Option (List CGRaw)) (symbol timeframe : String) (limite : ℕ) :
    analizar_activo_crypto cache cgFetch none symbol timeframe limite =
      (.unavailable none, cache) := by
  unfold analizar_activo_crypto obtener_velas_crypto obtener_velas_bitcoin
    get_crypto_fallback_response_data
  split_ifs <;> rfl

/-! ### Claim C7 -/

/-- C7 counterexample: the claim says every timeframe other than daily and
hourly gets the single short default TTL (300 s); the code's TTL table has
a fourth tier, `"4h" ↦ 900 s`, distinct from the 300 s default. -/
theorem C7_counterexample :
    get_cache_duration "4h" = 900 ∧ DEFAULT_CACHE_DURATION_SECONDS = 300 := by
  decide

/-- C7 (amended): the TTL assignment is `1d ↦ 1800`, `4h ↦ 900`,
`1h ↦ 600`, and the 300 s default for every other timeframe code
(lookup is case-insensitive); the four tiers are strictly ordered with
granularity. -/
theorem C7_ttl_tiers :
    get_cache_duration "1d" = 1800 ∧
    get_cache_duration "1h" = 600 ∧
    get_cache_duration "4h" = 900 ∧
    (∀ tf : String, pyLower tf ≠ "1d" → pyLower tf ≠ "1h" → pyLower tf ≠ "4h" →
      get_cache_duration tf = DEFAULT_CACHE_DURATION_SECONDS) ∧
    DEFAULT_CACHE_DURATION_SECONDS < 600 ∧ 600 < 900 ∧ 900 < 1800 := by
  refine ⟨by decide, by decide, by decide, ?_, by decide, by decide, by decide⟩
  intro tf h1d h1h h4h
  unfold get_cache_duration CACHE_TTL
  rw [List.find?]
  rw [show (("1d", 1800).1 == pyLower tf) = false from
    beq_eq_false_iff_ne.mpr (fun h => h1d h.symm)]
  rw [List.find?]
  rw [show (("1h", 600).1 == pyLower tf) = false from
    beq_eq_false_iff_ne.mpr (fun h => h1h h.symm)]
  rw [List.find?]
  rw [show (("4h", 900).1 == pyLower tf) = false from
    beq_eq_false_iff_ne.mpr (fun h => h4h h.symm)]
  rfl

/-- C7 witness: the theorem's quantified clause at the concrete timeframe
`"5m"`, which is neither daily, hourly nor 4-hourly. -/
theorem C7_ttl_tiers_witness :
    get_cache_duration "5m" = DEFAULT_CACHE_DURATION_SECONDS :=
  C7_ttl_tiers.2.2.2.1 "5m" (by decide) (by decide) (by decide)

/-! ### Claim C2 -/

/-- A CoinGecko OHLC response with one point: provider A succeeds. -/
def c2_cg_rows : List CGRaw := [⟨0, 10, 11, 9, 10⟩]

/-- C2 counterexample: for the crypto retrieval of `BTCUSDT`/`1h` in an
environment where crypto-provider-A (the allowlist adapter, CoinGecko)
would succeed with one candle and crypto-provider-B (Binance) fails, the
claim predicts a `Fresh` outcome with A's candles written through to the
cache; the code's resolver never invokes provider A — the retrieval ends
in the generic exception (rendered `Unavailable`) and the cache stays
empty, even though `obtener_velas_coingecko` succeeds on that very input. -/
theorem C2_counterexample :
    obtener_velas_crypto [] (some c2_cg_rows) none "BTCUSDT" "1h" 100 =
      (.exception, []) ∧
    (obtener_velas_coingecko "BTCUSDT" "1h" 100 (some c2_cg_rows)).toOption =
      some [⟨10, 11, 9, 10, 0⟩] := by
  decide

/-- C2 (amended): the crypto resolver consults only crypto-provider-B
(Binance): the CoinGecko oracle never influences the outcome, and on a
provider-B success the converted klines are returned as the fresh result
with no cache write — the cache state is returned unchanged. -/
theorem C2_binance_only :
    (∀ (cache : Cache) (cg cg' : Option (List CGRaw)) (b : Option (List BinanceRaw))
      (symbol timeframe : String) (limite : ℕ),
      obtener_velas_crypto cache cg b symbol timeframe limite =
        obtener_velas_crypto cache cg' b symbol timeframe limite) ∧
    (∀ (cache : Cache) (cg : Option (List CGRaw)) (rows : List BinanceRaw)
      (symbol timeframe : String) (limite : ℕ),
      timeframe ∈ TIMEFRAMES_PERMITIDOS → 1 ≤ limite → limite ≤ 1000 →
      obtener_velas_crypto cache cg (some rows) symbol timeframe limite =
        (.ok (rows.map convertir_vela_binance_a_formato), cache)) := by
  constructor
  · intro cache cg cg' b symbol timeframe limite
    rfl
  · intro cache cg rows symbol timeframe limite htf h1 h2
    unfold obtener_velas_crypto obtener_velas_bitcoin
    rw [if_neg (by simpa using htf), if_neg (by omega)]

/-- C2 witness: the amended theorem's provider-B-success clause at a
concrete input. -/
theorem C2_binance_only_witness :
    obtener_velas_crypto [] none (some [⟨0, 3, 4, 2, 3, 7⟩]) "btcusdt" "1h" 100 =
      (.ok [⟨3, 4, 2, 3, 7⟩], []) :=
  C2_binance_only.2 [] none [⟨0, 3, 4, 2, 3, 7⟩] "btcusdt" "1h" 100
    (by decide) (by decide) (by decide)

/-! ### Claim C3 -/

/-- A raw Binance kline violating the OHLC invariant: high 5 is below
open 10 (and below low 8). -/
def c3_raw : BinanceRaw := ⟨0, 10, 5, 8, 9, 1⟩

/-- The candle the Binance normalization produces from `c3_raw`. -/
def c3_vela : Vela := ⟨10, 5, 8, 9, 1⟩

/-- C3 counterexample: the claim says a raw candle with
`high < max(open, close, low)` is discarded by normalization; the Binance
adapter emits it unchanged — the full fetch returns it as a success, and
the emitted candle has `high < open`. -/
theorem C3_counterexample :
    obtener_velas_bitcoin "1h" 100 "BTCUSDT" (some [c3_raw]) = .ok [c3_vela] ∧
    c3_vela.high < c3_vela.«open» := by
  decide

/-- C3 (amended): no normalization step checks the OHLC invariant.  The
Binance adapter emits every fetched kline converted field-by-field, and the
Yahoo conversion loop emits a candle for every index of the window whose
open/high/low/close are all non-null (volume defaulting to 0) — whatever
the relationship between the numeric fields. -/
theorem C3_no_invariant_filter :
    (∀ (rows : List BinanceRaw) (timeframe simbolo : String) (limite : ℕ),
      timeframe ∈ TIMEFRAMES_PERMITIDOS → 1 ≤ limite → limite ≤ 1000 →
      obtener_velas_bitcoin timeframe limite simbolo (some rows) =
        .ok (rows.map convertir_vela_binance_a_formato)) ∧
    (∀ (q : YahooQuote) (limite i : ℕ) (o h l c : ℚ),
      q.timestamps.length - limite ≤ i → i < q.timestamps.length →
      (q.opens.get? i).join = some o → (q.highs.get? i).join = some h →
      (q.lows.get? i).join = some l → (q.closes.get? i).join = some c →
      (⟨o, h, l, c, ((q.volumes.get? i).join).getD 0⟩ : Vela) ∈ yahooParse q limite) := by
  constructor
  · intro rows timeframe simbolo limite htf h1 h2
    unfold obtener_velas_bitcoin
    rw [if_neg (by simpa using htf), if_neg (by omega)]
  · intro q limite i o h l c hlo hhi ho hh hl hc
    unfold yahooParse
    apply List.mem_filterMap.mpr
    refine ⟨i, ?_, ?_⟩
    · apply List.mem_range'_1.mpr
      omega
    · rw [ho, hh, hl, hc]

/-- C3 witness: both clauses of the amended theorem at concrete inputs —
the Binance adapter passes the invariant-violating kline `c3_raw` through,
and the Yahoo loop emits the invariant-violating candle found at index 1
of a two-point payload. -/
theorem C3_no_invariant_filter_witness :
    obtener_velas_bitcoin "1d" 50 "ETHUSDT" (some [c3_raw]) = .ok [c3_vela] ∧
    (⟨10, 5, 8, 9, (0 : ℚ)⟩ : Vela) ∈
      yahooParse ⟨[0, 1], [some 1, some 10], [some 1, some 5], [some 1, some 8],
        [some 1, some 9], [none, none]⟩ 2 := by
  constructor
  · exact C3_no_invariant_filter.1 [c3_raw] "1d" "ETHUSDT" 50
      (by decide) (by decide) (by decide)
  · exact C3_no_invariant_filter.2
      ⟨[0, 1], [some 1, some 10], [some 1, some 5], [some 1, some 8],
        [some 1, some 9], [none, none]⟩ 2 1 10 5 8 9
      (by decide) (by decide) (by decide) (by decide) (by decide) (by decide)

/-! ### Claim C4 -/

/-- Reading an entry that expired deletes it and reports a miss. -/
theorem get_from_cache_expired (cache : Cache) (now : ℕ)
    (market symbol timeframe : String) (entry : CacheEntry)
    (hfind : cacheFind cache (_make_cache_key market symbol timeframe) = some entry)
    (hexp : entry.expires_at < now) :
    get_from_cache cache now market symbol timeframe =
      (none, cacheDelete cache (_make_cache_key market symbol timeframe)) := by
  unfold get_from_cache
  dsimp only
  rw [hfind]
  dsimp only
  rw [if_pos hexp]

/-- After deleting a key, `get_last_cache` misses on it. -/
theorem get_last_cache_delete (cache : Cache) (market symbol timeframe : String) :
    get_last_cache (cacheDelete cache (_make_cache_key market symbol timeframe))
      market symbol timeframe = none := by
  unfold get_last_cache
  rw [cacheFind_delete]
  rfl

/-- The five stale candles of the C4 scenario; the last close is 150. -/
def c4_velas : List Vela :=
  [⟨1, 1, 1, 1, 0⟩, ⟨2, 2, 2, 2, 0⟩, ⟨3, 3, 3, 3, 0⟩, ⟨4, 4, 4, 4, 0⟩,
   ⟨149, 151, 148, 150, 0⟩]

/-- A cache holding the stale `("stocks", "AAPL", "1d")` entry (expired at
instant 100). -/
def c4_cache : Cache := [(("stocks", "AAPL", "1d"), ⟨c4_velas, 0, 100⟩)]

/-- C4 counterexample: the equity provider fails at instant 101 while the
cache holds a stale entry whose last close is 150; the claim predicts a
`Stale` outcome carrying those candles with reference price 150.  The code
returns the degraded shape with zero candles and **no** reference price:
the initial `get_from_cache` deleted the expired entry, so the failure
handler's `get_last_cache` finds nothing. -/
theorem C4_counterexample :
    analizar_activo_equity c4_cache 101 none "stocks" "AAPL" "1d" 100 =
      (.unavailable none, []) ∧
    get_last_cache c4_cache "stocks" "AAPL" "1d" = some c4_velas ∧
    (c4_velas.getLast?).map Vela.close = some 150 := by
  decide

/-- C4 (amended): for every equity retrieval where the provider call fails
and the cache held an (expired) entry for the key, the outcome is the
degraded `Unavailable`-style response with no reference price, and the
entry is gone: the expired entry was deleted by the initial `get_from_cache`,
so the stale-serving branch and the `precio_referencia` computation both
miss.  (No `Stale`-tagged outcome exists in the code: a stale entry that
survives to the failure handler would be returned as a plain candle list,
indistinguishable from a fresh result.) -/
theorem C4_provider_failure_loses_stale_entry (cache : Cache) (now : ℕ)
    (market symbol timeframe : String) (limite : ℕ) (entry : CacheEntry)
    (hfind : cacheFind cache
      (_make_cache_key (pyLower market) (pyUpper symbol) timeframe) = some entry)
    (hexp : entry.expires_at < now) :
    analizar_activo_equity cache now none market symbol timeframe limite =
      (.unavailable none,
       cacheDelete cache (_make_cache_key (pyLower market) (pyUpper symbol) timeframe)) := by
  have h1 := get_from_cache_expired cache now (pyLower market) (pyUpper symbol)
    timeframe entry hfind hexp
  have h2 := get_last_cache_delete cache (pyLower market) (pyUpper symbol) timeframe
  unfold analizar_activo_equity obtener_velas_yahoo_finance
  rw [h1]
  dsimp only
  by_cases htf : (timeframe_mapping.find? (fun p => p.1 == timeframe)).isNone = true
  · rw [if_pos htf]
    dsimp only
    unfold get_fallback_response_data
    rw [h2]
    rfl
  · rw [if_neg htf]
    unfold yahooExceptHandler
    rw [h2]
    dsimp only
    unfold get_fallback_response_data
    rw [h2]
    rfl

/-- C4 witness: the amended theorem at the concrete C4 scenario. -/
theorem C4_provider_failure_loses_stale_entry_witness :
    analizar_activo_equity c4_cache 101 none "stocks" "AAPL" "1d" 100 =
      (.unavailable none,
       cacheDelete c4_cache (_make_cache_key "stocks" "AAPL" "1d")) := by
  have := C4_provider_failure_loses_stale_entry c4_cache 101 "stocks" "AAPL" "1d"
    100 ⟨c4_velas, 0, 100⟩ (by decide) (by decide)
  simpa using this

/-! ### Claim C6 -/

/-- C6: when `get_from_cache` reports a fresh hit, the Yahoo retrieval
returns those candles (truncated to `limite`) with the hit's cache state,
and the provider oracle is irrelevant — no network call is consulted. -/
theorem C6_fresh_hit_no_network (cache : Cache) (now : ℕ)
    (fetch fetch' : Option YahooQuote) (symbol timeframe : String)
    (limite : ℕ) (market : String) (d : List Vela) (cache1 : Cache)
    (h : get_from_cache cache now market symbol timeframe = (some d, cache1)) :
    obtener_velas_yahoo_finance cache now fetch symbol timeframe limite market =
      (.velas (if limite < d.length then d.take limite else d), cache1) ∧
    obtener_velas_yahoo_finance cache now fetch symbol timeframe limite market =
      obtener_velas_yahoo_finance cache now fetch' symbol timeframe limite market := by
  constructor
  · unfold obtener_velas_yahoo_finance
    rw [h]
  · unfold obtener_velas_yahoo_finance
    rw [h]

/-- The fresh cached candles of the C6 scenario. -/
def c6_velas : List Vela := [⟨7, 9, 6, 8, 11⟩, ⟨8, 10, 7, 9, 12⟩]

/-- A cache whose `("stocks", "AAPL", "1d")` entry is still fresh at
instant 50 (expires at 100). -/
def c6_cache : Cache := [(("stocks", "AAPL", "1d"), ⟨c6_velas, 0, 100⟩)]

/-- C6 witness: the theorem at the concrete fresh-hit scenario, with a
failing oracle on one side and a successful one on the other — the result
is the cached data either way. -/
theorem C6_fresh_hit_no_network_witness :
    obtener_velas_yahoo_finance c6_cache 50 none "AAPL" "1d" 100 "stocks" =
      (.velas c6_velas, c6_cache) ∧
    obtener_velas_yahoo_finance c6_cache 50 none "AAPL" "1d" 100 "stocks" =
      obtener_velas_yahoo_finance c6_cache 50
        (some ⟨[0], [some 1], [some 1], [some 1], [some 1], [some 1]⟩)
        "AAPL" "1d" 100 "stocks" := by
  have := C6_fresh_hit_no_network c6_cache 50 none
    (some ⟨[0], [some 1], [some 1], [some 1], [some 1], [some 1]⟩)
    "AAPL" "1d" 100 "stocks" c6_velas c6_cache (by decide)
  exact ⟨by simpa using this.1, this.2⟩

/-! ### Claim C8 -/

/-- C8 counterexample: the claim says every adapter turns a zero-candle
payload into an error outcome; the Binance adapter returns the empty list
as a plain success. -/
theorem C8_counterexample :
    obtener_velas_bitcoin "1h" 100 "BTCUSDT" (some []) = .ok [] := by
  decide

/-- C8 (amended): the Yahoo adapter raises on a payload yielding zero
valid candles — with nothing cached for the key the retrieval ends in the
`YahooFinanceFallback` signal, exactly like a network failure — and the
CoinGecko adapter errors on an empty body; the Binance adapter, however,
returns an empty payload as a successful empty candle list. -/
theorem C8_zero_candles :
    (∀ (cache : Cache) (now : ℕ) (q : YahooQuote) (symbol timeframe : String)
      (limite : ℕ) (market : String),
      (get_from_cache cache now market symbol timeframe).1 = none →
      get_last_cache (get_from_cache cache now market symbol timeframe).2
        market symbol timeframe = none →
      (timeframe_mapping.find? (fun p => p.1 == timeframe)).isNone = false →
      yahooParse q limite = [] →
      obtener_velas_yahoo_finance cache now (some q) symbol timeframe limite market =
        (.fallback market symbol timeframe,
         (get_from_cache cache now market symbol timeframe).2)) ∧
    (∀ (simbolo timeframe : String) (limite : ℕ),
      ∃ e, obtener_velas_coingecko simbolo timeframe limite (some []) = .error e) ∧
    (∀ (timeframe simbolo : String) (limite : ℕ),
      timeframe ∈ TIMEFRAMES_PERMITIDOS → 1 ≤ limite → limite ≤ 1000 →
      obtener_velas_bitcoin timeframe limite simbolo (some []) = .ok []) := by
  refine ⟨?_, ?_, ?_⟩
  · intro cache now q symbol timeframe limite market hmiss hlast htf hparse
    have hpair : get_from_cache cache now market symbol timeframe =
        (none, (get_from_cache cache now market symbol timeframe).2) := by
      calc get_from_cache cache now market symbol timeframe
          = ((get_from_cache cache now market symbol timeframe).1,
             (get_from_cache cache now market symbol timeframe).2) := rfl
        _ = (none, (get_from_cache cache now market symbol timeframe).2) := by
            rw [hmiss]
    unfold obtener_velas_yahoo_finance
    rw [hpair]
    dsimp only
    rw [if_neg (by simp [htf])]
    rw [hparse]
    unfold yahooExceptHandler
    rw [hlast]
    rw [if_pos rfl]
  · intro simbolo timeframe limite
    unfold obtener_velas_coingecko _coingecko_id_from_symbol
    cases hfind : SYMBOL_TO_COINGECKO_ID.find?
        (fun p => p.1 == pyStrip (pyUpper simbolo)) with
    | none => exact ⟨.unsupportedSymbol simbolo, by dsimp only; rw [hfind]; rfl⟩
    | some p => exact ⟨.emptyData simbolo, by dsimp only; rw [hfind]; rfl⟩
  · intro timeframe simbolo limite htf h1 h2
    unfold obtener_velas_bitcoin
    rw [if_neg (by simpa using htf), if_neg (by omega)]
    rfl

/-- C8 witness: the amended theorem's Yahoo clause on an all-null one-row
payload over an empty cache, and its Binance clause on an empty payload. -/
theorem C8_zero_candles_witness :
    obtener_velas_yahoo_finance [] 5
        (some ⟨[0], [none], [none], [none], [none], [none]⟩) "AAPL" "1d" 10 "stocks" =
      (.fallback "stocks" "AAPL" "1d", []) ∧
    obtener_velas_bitcoin "1h" 100 "XRPUSDT" (some []) = .ok [] := by
  constructor
  · have := C8_zero_candles.1 [] 5 ⟨[0], [none], [none], [none], [none], [none]⟩
      "AAPL" "1d" 10 "stocks" (by decide) (by decide) (by decide) (by decide)
    simpa using this
  · exact C8_zero_candles.2.2 "1h" "XRPUSDT" 100 (by decide) (by decide) (by decide)

/-! ### Claim C9 -/

/-- C9: casing variants of the same `(market, symbol, timeframe)` triple
build the identical cache key, and a `save_to_cache` under one casing
followed by `get_from_cache` under another (at any instant not later than
the write's expiry — here, the write instant itself) hits the same entry
and returns exactly the data just written, without mutating the cache. -/
theorem C9_cache_key_case_insensitive
    (market market' symbol symbol' timeframe timeframe' : String)
    (hm : CaseVariantStr market market') (hs : CaseVariantStr symbol symbol')
    (ht : CaseVariantStr timeframe timeframe') :
    _make_cache_key market' symbol' timeframe' =
      _make_cache_key market symbol timeframe ∧
    ∀ (cache : Cache) (now : ℕ) (data : List Vela),
      get_from_cache (save_to_cache cache now market symbol timeframe data) now
        market' symbol' timeframe' =
        (some data, save_to_cache cache now market symbol timeframe data) := by
  have hkey : _make_cache_key market' symbol' timeframe' =
      _make_cache_key market symbol timeframe := by
    unfold _make_cache_key
    rw [pyLower_of_caseVariant hm, pyUpper_of_caseVariant hs,
      pyLower_of_caseVariant ht]
  refine ⟨hkey, ?_⟩
  intro cache now data
  unfold get_from_cache save_to_cache
  dsimp only
  rw [hkey, cacheFind_write]
  dsimp only
  rw [if_neg (by omega)]

/-- C9 witness: the spec's own example — a write under
`("crypto", "btcusdt", "1H")` is read back under `("CRYPTO", "BTCUSDT", "1h")`. -/
theorem C9_cache_key_case_insensitive_witness :
    _make_cache_key "CRYPTO" "BTCUSDT" "1h" =
      _make_cache_key "crypto" "btcusdt" "1H" ∧
    get_from_cache (save_to_cache [] 7 "crypto" "btcusdt" "1H" [⟨1, 2, 0, 1, 3⟩]) 7
        "CRYPTO" "BTCUSDT" "1h" =
      (some [⟨1, 2, 0, 1, 3⟩], save_to_cache [] 7 "crypto" "btcusdt" "1H" [⟨1, 2, 0, 1, 3⟩]) := by
  have h := C9_cache_key_case_insensitive "crypto" "CRYPTO" "btcusdt" "BTCUSDT"
    "1H" "1h" (by decide) (by decide) (by decide)
  exact ⟨h.1, h.2 [] 7 [⟨1, 2, 0, 1, 3⟩]⟩

/-! ### Claim C10 -/

/-- A `filterMap` whose function is everywhere `some` on the list is a `map`. -/
theorem filterMap_eq_map_of_forall_some {α β : Type} (f : α → Option β)
    (g : α → β) :
    ∀ l : List α, (∀ a ∈ l, f a = some (g a)) → l.filterMap f = l.map g := by
  intro l
  induction l with
  | nil => intro _; rfl
  | cons a tl ih =>
    intro h
    rw [List.filterMap_cons, h a (List.mem_cons_self a tl), List.map_cons,
      ih (fun x hx => h x (List.mem_cons_of_mem a hx))]

/-- Reading every index of a list in order reconstructs the list. -/
theorem map_getD_range {α : Type} (d : α) :
    ∀ L : List α, (List.range L.length).map (fun i => L.getD i d) = L := by
  intro L
  induction L with
  | nil => rfl
  | cons a tl ih =>
    rw [List.length_cons, List.range_succ_eq_map, List.map_cons, List.map_map]
    have hfun : ((fun i => (a :: tl).getD i d) ∘ Nat.succ) = (fun i => tl.getD i d) :=
      funext fun i => rfl
    rw [hfun, ih]
    rfl

/-- Reading indices `s, s+1, …` of a list reconstructs its `drop s`. -/
theorem map_getD_range'_aux {α : Type} (d : α) :
    ∀ (s : ℕ) (l : List α),
      (List.range (l.length - s)).map (fun i => l.getD (s + i) d) = l.drop s := by
  intro s
  induction s with
  | zero =>
    intro l
    simpa using map_getD_range d l
  | succ s ih =>
    intro l
    cases l with
    | nil => simp
    | cons a tl =>
      rw [List.length_cons, List.drop_succ_cons]
      have : (fun i => (a :: tl).getD (s + 1 + i) d) = fun i => tl.getD (s + i) d := by
        funext i
        have harith : s + 1 + i = (s + i) + 1 := by omega
        rw [harith, List.getD_cons_succ]
      rw [show tl.length + 1 - (s + 1) = tl.length - s by omega, this, ih tl]

/-- Reading the index window `range' s (l.length - s)` of a list is `l.drop s`. -/
theorem map_getD_range' {α : Type} (d : α) (l : List α) (s : ℕ) :
    (List.range' s (l.length - s)).map (fun i => l.getD i d) = l.drop s := by
  rw [List.range'_eq_map_range, List.map_map]
  exact map_getD_range'_aux d s l

/-- A Yahoo chart payload whose parallel arrays spell out the candle list
`velas` with no null entry. -/
def quoteOfVelas (ts : List ℕ) (velas : List Vela) : YahooQuote :=
  ⟨ts, velas.map (fun v => some v.«open»), velas.map (fun v => some v.high),
   velas.map (fun v => some v.low), velas.map (fun v => some v.close),
   velas.map (fun v => some v.volume)⟩

/-- The two cached candles of the C10 scenario. -/
def c10_velas : List Vela := [⟨1, 1, 1, 1, 0⟩, ⟨2, 2, 2, 2, 0⟩]

/-- A cache whose `("stocks", "AAPL", "1d")` entry holds `c10_velas` and is
still fresh at instant 5. -/
def c10_cache : Cache := [(("stocks", "AAPL", "1d"), ⟨c10_velas, 0, 1000⟩)]

/-- C10: a fresh cache hit is served as the FIRST `limite` candles of the
entry (`cached_data[:limite]`), while a provider fetch keeps the LAST
`limite` rows of the payload (`start_index = data_count - limite`); hence
the same request can return different candle windows depending on whether
it hits the cache.  Concretely, with `[v1, v2]` cached the hit with
`limite = 1` returns `[v1]`, while the fetch of a payload spelling out
`[v1, v2]` returns `[v2]`. -/
theorem C10_cache_hit_and_fetch_windows_differ :
    (∀ (cache : Cache) (now : ℕ) (fetch : Option YahooQuote)
      (symbol timeframe : String) (limite : ℕ) (market : String)
      (d : List Vela) (cache1 : Cache),
      get_from_cache cache now market symbol timeframe = (some d, cache1) →
      limite < d.length →
      obtener_velas_yahoo_finance cache now fetch symbol timeframe limite market =
        (.velas (d.take limite), cache1)) ∧
    (∀ (ts : List ℕ) (velas : List Vela) (limite : ℕ),
      ts.length = velas.length →
      yahooParse (quoteOfVelas ts velas) limite =
        velas.drop (velas.length - limite)) ∧
    (obtener_velas_yahoo_finance c10_cache 5 (some (quoteOfVelas [0, 1] c10_velas))
        "AAPL" "1d" 1 "stocks" = (.velas [⟨1, 1, 1, 1, 0⟩], c10_cache) ∧
     obtener_velas_yahoo_finance [] 5 (some (quoteOfVelas [0, 1] c10_velas))
        "AAPL" "1d" 1 "stocks" =
       (.velas [⟨2, 2, 2, 2, 0⟩],
        [(("stocks", "AAPL", "1d"), ⟨[⟨2, 2, 2, 2, 0⟩], 5, 1805⟩)])) := by
  refine ⟨?_, ?_, by decide, by decide⟩
  · intro cache now fetch symbol timeframe limite market d cache1 h hlt
    unfold obtener_velas_yahoo_finance
    rw [h]
    dsimp only
    rw [if_pos hlt]
  · intro ts velas limite hlen
    unfold yahooParse quoteOfVelas
    dsimp only
    rw [filterMap_eq_map_of_forall_some _ (fun i => velas.getD i ⟨0, 0, 0, 0, 0⟩) _ ?_]
    · rw [hlen]
      exact map_getD_range' _ velas _
    · intro i hi
      have hib : i < velas.length := by
        have := List.mem_range'_1.mp hi
        omega
      obtain ⟨v, hv⟩ : ∃ v, velas.get? i = some v :=
        ⟨velas.get ⟨i, hib⟩, List.get?_eq_get hib⟩
      have hgd : velas.getD i ⟨0, 0, 0, 0, 0⟩ = v := by
        rw [List.getD_eq_get?, hv]
        rfl
      simp only [List.get?_map, hv, Option.map_some', hgd]
      rfl

/-- C10 witness: both quantified clauses at the concrete two-candle
scenario — the fresh hit serves the first candle, the parsed payload keeps
the last. -/
theorem C10_cache_hit_and_fetch_windows_differ_witness :
    obtener_velas_yahoo_finance c10_cache 5 none "AAPL" "1d" 1 "stocks" =
      (.velas (c10_velas.take 1), c10_cache) ∧
    yahooParse (quoteOfVelas [0, 1] c10_velas) 1 = c10_velas.drop 1 := by
  constructor
  · exact C10_cache_hit_and_fetch_windows_differ.1 c10_cache 5 none "AAPL" "1d" 1
      "stocks" c10_velas c10_cache (by decide) (by decide)
  · exact C10_cache_hit_and_fetch_windows_differ.2.1 [0, 1] c10_velas 1 (by decide)
